import Mathlib

/-!
Shallow embedding of mojochao/plantumlwatch.

The repository contains two variants of the same module:
`plantumlwatch.py` at the repository root and `src/plantumlwatch.py`.
The event handler (`on_modified`), the command builder
(`plantuml_command`) and the `Watcher.__init__` validation chain are
identical in both (up to two words in two error messages); the root
variant is taken as authoritative for those, and the nested variant's
`Configurator.__init__` is the authoritative configuration merge.

Python string and dict primitives used by the code are embedded at the
`List Char` level so that every definition is executable and
kernel-reducible:
  * `pyEndsWith`  embeds `str.endswith` (exact, case-sensitive suffix);
  * `pyReplace`   embeds `str.replace`  (left-to-right, non-overlapping
                  replacement of every occurrence; the code only calls it
                  with the non-empty pattern `"." + extension`);
  * `pyJoin`      embeds `posixpath.join` for two arguments;
  * `pyDictUpdate` embeds `dict.update`.
-/

/-- Embedding of Python `str.endswith`: `suf` is an exact, case-sensitive
suffix of `s`. -/
def pyEndsWith (s suf : String) : Bool :=
  suf.data.isSuffixOf s.data

/-- Worker for `pyReplace`.  `skip` counts characters of an already-matched
pattern occurrence that remain to be consumed; at `skip = 0` the scanner
tests for a pattern occurrence at the current position, emits the
replacement on a match, and otherwise copies one character.  This is the
left-to-right, non-overlapping scan of CPython `str.replace`. -/
def replaceGo (pat sub : List Char) : Nat → List Char → List Char
  | _, [] => []
  | skip + 1, _ :: rest => replaceGo pat sub skip rest
  | 0, c :: rest =>
    if pat ≠ [] ∧ pat.isPrefixOf (c :: rest) then
      sub ++ replaceGo pat sub (pat.length - 1) rest
    else
      c :: replaceGo pat sub 0 rest

/-- Embedding of Python `s.replace(old, new)` for a non-empty `old`:
every non-overlapping occurrence of `old`, scanning left to right, is
replaced by `new`.  (For an empty `old` this returns `s` unchanged; the
program only ever passes the non-empty pattern `"." + extension`.) -/
def pyReplace (s old new : String) : String :=
  ⟨replaceGo old.data new.data 0 s.data⟩

/-- Embedding of `posixpath.join(a, b)` (two arguments), as used for the
`processing model source:` status line. -/
def pyJoin (a b : String) : String :=
  if b.data.head? = some '/' then b
  else if a = "" ∨ a.data.getLast? = some '/' then a ++ b
  else a ++ "/" ++ b

/-- Embedding of Python `d.update(u)` on dictionaries, with dictionaries
modelled as partial maps: keys defined by `u` win, all other keys keep
their binding from `d`. -/
def pyDictUpdate {α : Type} (d u : String → Option α) : String → Option α :=
  fun k =>
    match u k with
    | some v => some v
    | none => d k

/-- The kind of a watchdog filesystem notification.  The handler class
overrides only `on_modified`, so the dispatcher invokes the handler body
exactly for `modified` events; `created` and all other kinds hit the
default no-op handlers. -/
inductive EventKind : Type
  | modified
  | created
  | other
deriving DecidableEq, Repr

/-- A single filesystem change notification (watchdog event). -/
structure ChangeEvent : Type where
  src_path : String
  kind : EventKind
deriving DecidableEq, Repr

/-- Result of one `subprocess.call` on the render command: either the
process ran and exited with a code, or the launch itself failed with an
`OSError` (missing binary, permission denied, ...). -/
inductive ProcResult : Type
  | exited (code : Int)
  | oserror (msg : String)
deriving DecidableEq, Repr

/-- The resolved configuration as seen through the `Watcher` accessor
properties (`verbose`, `java`, `plantuml`, `watchdir`, `extension`,
`outputdir`, `format`). -/
structure Watcher : Type where
  verbose : Bool
  java : String
  plantuml : String
  watchdir : String
  extension : String
  outputdir : String
  format : String
deriving DecidableEq, Repr

/-- Embedding of `WatcherFileChangeHandler.plantuml_command`
(plantumlwatch.py:120-135): the format-string
`"{java} -jar {plantuml} {verbose} {format} {srcfile}"` with `verbose`
rendered as `"-v"` when `config.verbose` holds and as the empty string
otherwise, and `format` rendered as `"-t" ++ format`. -/
def plantuml_command (w : Watcher) (filename : String) : String :=
  w.java ++ " -jar " ++ w.plantuml ++ " "
    ++ (if w.verbose then "-v" else "") ++ " "
    ++ ("-t" ++ w.format) ++ " " ++ filename

/-- The expected-output path reported on success
(plantumlwatch.py:154): `filename.replace("." + extension, "." + format)`. -/
def genfileOf (w : Watcher) (filename : String) : String :=
  pyReplace filename ("." ++ w.extension) ("." ++ w.format)

/-- Embedding of `WatcherFileChangeHandler.on_modified`
(plantumlwatch.py:137-159).  Returns the printed status lines together
with the command handed to `subprocess.call` when the event passes the
extension filter (`none` when the event is filtered out).  The
`try/except OSError` of the source is reflected by the `oserror` branch
producing an `error:` line instead of escaping. -/
def on_modified (w : Watcher) (filename : String) (res : ProcResult) :
    List String × Option String :=
  let extension := "." ++ w.extension
  if pyEndsWith filename extension then
    let srcfile := pyJoin w.outputdir filename
    let firstLine := "processing model source: " ++ srcfile
    let cmd := plantuml_command w filename
    match res with
    | ProcResult.exited code =>
      if code = 0 then
        ([firstLine, "generated model diagram: " ++ genfileOf w filename],
          some cmd)
      else
        ([firstLine,
          "error: exit code " ++ toString code ++ " processing file "
            ++ filename],
          some cmd)
    | ProcResult.oserror err => ([firstLine, "error: " ++ err], some cmd)
  else ([], none)

/-- Watchdog dispatch over the handler: only `modified` events reach the
overridden `on_modified`; every other kind is a no-op for this handler. -/
def dispatchEvent (w : Watcher) (ev : ChangeEvent) (res : ProcResult) :
    List String × Option String :=
  match ev.kind with
  | EventKind.modified => on_modified w ev.src_path res
  | _ => ([], none)

/-- The serialized run loop: each incoming event is fully handled (and
its status lines emitted) before the next one, with the external world's
response to each event's render attempt supplied alongside it. -/
def processEvents (w : Watcher) (evs : List (ChangeEvent × ProcResult)) :
    List String :=
  (evs.map (fun p => (dispatchEvent w p.1 p.2).1)).flatten

/-- The render invocations actually launched during a run. -/
def invocationsOf (w : Watcher) (evs : List (ChangeEvent × ProcResult)) :
    List String :=
  evs.filterMap (fun p => (dispatchEvent w p.1 p.2).2)

/-- The valid output formats (plantumlwatch.py:55). -/
def VALID_OUTPUT_FORMATS : List String := ["png", "svg"]

/-- Embedding of `Watcher.__init__` (plantumlwatch.py:164-196): the
validation chain run on the resolved configuration, with the filesystem
supplied as `isfile`/`isdir` oracles.  Each failed check raises
`RuntimeError` with a message quoting the offending value; on success the
configuration is stored unchanged. -/
def watcherInit (isfile isdir : String → Bool) (w : Watcher) :
    Except String Watcher :=
  if isfile w.java = false then
    Except.error ("cannot find Java Virtual Machine binary file '"
      ++ w.java ++ "'")
  else if isfile w.plantuml = false then
    Except.error ("cannot find PlantUML jar file '" ++ w.plantuml ++ "'")
  else if isdir w.watchdir = false then
    Except.error ("cannot find watch directory '" ++ w.watchdir ++ "'")
  else if isdir w.outputdir = false then
    Except.error ("cannot find output directory '" ++ w.outputdir ++ "'")
  else if (VALID_OUTPUT_FORMATS.contains w.format) = false then
    Except.error ("cannot handle output format '" ++ w.format ++ "'")
  else Except.ok w

/-- The banner lines printed by `Watcher.watch` (plantumlwatch.py:229-231)
before the notification subscription starts. -/
def watchHeader (w : Watcher) : List String :=
  ("watching directory " ++ w.watchdir ++ " for files with extension '"
      ++ w.extension ++ "'")
    :: (if w.verbose then ["using plantuml: " ++ w.plantuml] else [])

/-- Observable outcome of the watch branch of `main`: either a fatal
startup error (`sys.exit("error: ...")`) or a completed watch session
with its emitted lines. -/
inductive AppResult : Type
  | fatal (msg : String)
  | ran (outputs : List String)
deriving DecidableEq, Repr

/-- The watch branch of `main` (plantumlwatch.py:291-294, 297-298):
construct the `Watcher` (running validation) and only then watch; a
`RuntimeError` from validation is caught and turned into
`sys.exit("error: ...")` before any subscription is created. -/
def mainWatch (isfile isdir : String → Bool) (w : Watcher)
    (evs : List (ChangeEvent × ProcResult)) : AppResult :=
  match watcherInit isfile isdir w with
  | Except.error e => AppResult.fatal ("error: " ++ e)
  | Except.ok w2 => AppResult.ran (watchHeader w2 ++ processEvents w2 evs)

/-- A persisted configuration file as the `Configurator` sees it: absent
(`os.path.isfile` is false), present but not valid JSON (`json.load`
raises `ValueError` with some message), or parsed into a flat key/value
mapping. -/
inductive ConfigFile (α : Type) : Type
  | absent
  | malformed (err : String)
  | parsed (entries : String → Option α)

/-- The key/value entries a configuration-file stage contributes:
nothing when the file is absent (or unreadable), its parsed mapping
otherwise. -/
def stageEntries {α : Type} : ConfigFile α → (String → Option α)
  | ConfigFile.absent => fun _ => none
  | ConfigFile.malformed _ => fun _ => none
  | ConfigFile.parsed m => m

/-- One iteration of the configuration-file loop in
`Configurator.__init__` (src/plantumlwatch.py:154-161): a missing file is
skipped, a malformed file raises `RuntimeError` naming the file and the
parse failure, a parsed file is merged over the accumulator with
`dict.update`. -/
def loadConfigFile {α : Type} (cfg : String → Option α) (filename : String)
    (st : ConfigFile α) : Except String (String → Option α) :=
  match st with
  | ConfigFile.absent => Except.ok cfg
  | ConfigFile.malformed e =>
    Except.error ("configuration file " ++ filename
      ++ " is not a valid json file: " ++ e)
  | ConfigFile.parsed m => Except.ok (pyDictUpdate cfg m)

/-- Embedding of `Configurator.__init__` (src/plantumlwatch.py:138-168):
start from the defaults, merge the global (user-home) file, then the
local (working-directory) file, then the command-line options when
present.  Values are kept abstract in `α` (the Python dict is
heterogeneous); dictionaries are partial maps. -/
def configuratorInit {α : Type} (defaults : String → Option α)
    (globalName localName : String) (globalFile localFile : ConfigFile α)
    (argopts : Option (String → Option α)) :
    Except String (String → Option α) := do
  let c0 := defaults
  let c1 ← loadConfigFile c0 globalName globalFile
  let c2 ← loadConfigFile c1 localName localFile
  match argopts with
  | none => Except.ok c2
  | some a => Except.ok (pyDictUpdate c2 a)

/-- The entries contributed by the command-line-options stage. -/
def optEntries {α : Type} (o : Option (String → Option α)) :
    String → Option α :=
  fun k =>
    match o with
    | none => none
    | some m => m k

/-- Name of the persisted configuration file (plantumlwatch.py:33). -/
def CONFIG_FILENAME : String := ".plantumlwatch"

/-- The recognized commands (plantumlwatch.py:54). -/
def VALID_COMMANDS : List String := ["watch", "configure"]

/-- Embedding of the call `configure()` at plantumlwatch.py:296.  The
function `configure` (line 97) declares one required positional
parameter `self`, while the call site supplies zero arguments, so Python
raises `TypeError` before the function body ever executes; no file is
written and nothing is printed by `configure`. -/
def configureCall : Except String Unit :=
  Except.error "configure() missing 1 required positional argument: 'self'"

/-- Observable outcome of `main` (plantumlwatch.py:246-298). -/
inductive MainOutcome : Type
  | helpShown
  | watched (r : AppResult)
  | configWritten (path : String)
  | errorExit (msg : String)
deriving DecidableEq, Repr

/-- Embedding of the command dispatch in `main`
(plantumlwatch.py:283-298): an empty command list defaults to
`["watch"]`; anything but a single recognized command prints help;
`watch` resolves and validates configuration and watches; `configure`
invokes `configure()`, whose `TypeError` is caught by the
`except Exception` clause and becomes `sys.exit("error: ...")`. -/
def mainRun (isfile isdir : String → Bool) (w : Watcher)
    (evs : List (ChangeEvent × ProcResult)) (commands : List String) :
    MainOutcome :=
  let commands := if commands.isEmpty then ["watch"] else commands
  match commands with
  | [c] =>
    if c = "watch" then MainOutcome.watched (mainWatch isfile isdir w evs)
    else if c = "configure" then
      match configureCall with
      | Except.error e => MainOutcome.errorExit ("error: " ++ e)
      | Except.ok _ => MainOutcome.configWritten CONFIG_FILENAME
    else MainOutcome.helpShown
  | _ => MainOutcome.helpShown

/-- Modelled from the spec: the invocation form of the external-process
contract, `interpreter rendererPath [-v] -t<format> <sourceFile>`, as an
argument list.  This is the specification side of the refinement claim
about the command builder; `plantuml_command` above is the code side. -/
def renderInvocationSpec (w : Watcher) (f : String) : List String :=
  [w.java, "-jar", w.plantuml]
    ++ (if w.verbose then ["-v"] else [])
    ++ ["-t" ++ w.format, f]

/-- Worker splitting a character list at spaces; `cur` holds the
characters of the current field in reverse. -/
def splitSpacesAux (cur : List Char) : List Char → List (List Char)
  | [] => [cur.reverse]
  | c :: rest =>
    if c = ' ' then cur.reverse :: splitSpacesAux [] rest
    else splitSpacesAux (c :: cur) rest

/-- The whitespace tokens of a command string: split at single spaces and
drop empty fields.  This is how a space-free argument vector reads off a
space-joined command line. -/
def tokensOf (s : String) : List String :=
  ((splitSpacesAux [] s.data).filter (fun t => t ≠ [])).map
    (fun t => String.mk t)

/-! Helper lemmas about the embedded string primitives. -/

/-- Characterization of the Python suffix test: `s.endswith(suf)` holds
exactly when `s` decomposes as some string followed by `suf`. -/
theorem pyEndsWith_iff {s suf : String} :
    pyEndsWith s suf = true ↔ ∃ pre : String, s = pre ++ suf := by
  unfold pyEndsWith
  rw [List.isSuffixOf_iff_suffix]
  constructor
  · rintro ⟨t, ht⟩
    refine ⟨⟨t⟩, String.ext ?_⟩
    rw [String.data_append]
    exact ht.symm
  · rintro ⟨pre, rfl⟩
    exact ⟨pre.data, (String.data_append pre suf).symm⟩

theorem isPrefixOf_self_append (l t : List Char) :
    l.isPrefixOf (l ++ t) = true := by
  induction l with
  | nil => simp [List.isPrefixOf]
  | cons c cs ih => simp [List.isPrefixOf, ih]

theorem replaceGo_skip_append (pat sub : List Char) (xs ys : List Char) :
    replaceGo pat sub xs.length (xs ++ ys) = replaceGo pat sub 0 ys := by
  induction xs with
  | nil => rfl
  | cons c cs ih => simp [replaceGo, ih]

theorem replaceGo_matched (pat sub rest : List Char) (h : pat ≠ []) :
    replaceGo pat sub 0 (pat ++ rest) = sub ++ replaceGo pat sub 0 rest := by
  cases pat with
  | nil => exact absurd rfl h
  | cons p ps =>
    rw [List.cons_append, replaceGo]
    rw [if_pos ⟨h, by simp [isPrefixOf_self_append (p :: ps) rest]⟩]
    simp only [List.length_cons, Nat.add_sub_cancel]
    rw [show (ps ++ rest : List Char) = ps ++ rest from rfl,
      replaceGo_skip_append]

theorem replaceGo_nomatch (pat sub : List Char) (c : Char)
    (rest : List Char) (h : pat.isPrefixOf (c :: rest) = false) :
    replaceGo pat sub 0 (c :: rest) = c :: replaceGo pat sub 0 rest := by
  rw [replaceGo, if_neg]
  rintro ⟨-, hp⟩
  rw [h] at hp
  exact Bool.false_ne_true hp

theorem replaceGo_clean (pat sub : List Char) (x y : List Char)
    (h : ∀ i, i < x.length → pat.isPrefixOf ((x ++ y).drop i) = false) :
    replaceGo pat sub 0 (x ++ y) = x ++ replaceGo pat sub 0 y := by
  induction x with
  | nil => rfl
  | cons c cs ih =>
    have h0 : pat.isPrefixOf (c :: (cs ++ y)) = false := by
      simpa using h 0 (Nat.succ_pos _)
    have hrest : ∀ i, i < cs.length →
        pat.isPrefixOf ((cs ++ y).drop i) = false := by
      intro i hi
      simpa using h (i + 1) (by simpa using Nat.succ_lt_succ hi)
    rw [List.cons_append, replaceGo_nomatch pat sub c (cs ++ y) h0, ih hrest]
    simp

/-! Lemmas about the space-splitting of a command line. -/

theorem splitSpacesAux_space (cur ys : List Char) :
    splitSpacesAux cur (' ' :: ys) = cur.reverse :: splitSpacesAux [] ys := by
  simp [splitSpacesAux]

theorem splitSpacesAux_append (xs : List Char) (h : ' ' ∉ xs) :
    ∀ (cur ys : List Char),
      splitSpacesAux cur (xs ++ ys) = splitSpacesAux (xs.reverse ++ cur) ys := by
  induction xs with
  | nil => intro cur ys; simp
  | cons c cs ih =>
    intro cur ys
    have hc : ¬ (c = ' ') := fun hc => h (hc ▸ List.mem_cons_self c cs)
    rw [List.cons_append, splitSpacesAux, if_neg hc,
      ih (fun hm => h (List.mem_cons_of_mem c hm)) (c :: cur) ys]
    congr 1
    simp

theorem splitSpacesAux_eval (xs ys : List Char) (h : ' ' ∉ xs) :
    splitSpacesAux [] (xs ++ ' ' :: ys) = xs :: splitSpacesAux [] ys := by
  rw [splitSpacesAux_append xs h [] (' ' :: ys), splitSpacesAux_space]
  simp

theorem splitSpacesAux_last (xs : List Char) (h : ' ' ∉ xs) :
    splitSpacesAux [] xs = [xs] := by
  have h2 := splitSpacesAux_append xs h [] []
  rw [List.append_nil] at h2
  rw [h2]
  simp [splitSpacesAux]

/-! Claim theorems. -/

/-- C1: for every change event and configured source extension, the
handler launches a render invocation if and only if the event's kind is
`modified` and its path ends with the exact, case-sensitive suffix
`"." + extension` (equivalently, the path decomposes as a prefix followed
by that suffix); in particular a `created` event for a matching path
triggers no invocation, and the near-miss path `"foo.pub"` with extension
`"pu"` is rejected while `"diagram.pu"` is accepted. -/
theorem changeFilter_accepts_iff_modified_and_suffix :
    (∀ (w : Watcher) (ev : ChangeEvent) (res : ProcResult),
      (dispatchEvent w ev res).2.isSome = true ↔
        (ev.kind = EventKind.modified ∧
          ∃ pre : String, ev.src_path = pre ++ ("." ++ w.extension))) ∧
    (dispatchEvent (Watcher.mk false "java" "plantuml.jar" "." "pu" "." "png")
      (ChangeEvent.mk "diagram.pu" EventKind.created)
      (ProcResult.exited 0)).2 = none ∧
    (dispatchEvent (Watcher.mk false "java" "plantuml.jar" "." "pu" "." "png")
      (ChangeEvent.mk "foo.pub" EventKind.modified)
      (ProcResult.exited 0)).2 = none ∧
    (dispatchEvent (Watcher.mk false "java" "plantuml.jar" "." "pu" "." "png")
      (ChangeEvent.mk "diagram.pu" EventKind.modified)
      (ProcResult.exited 0)).2.isSome = true := by
  refine ⟨?_, by decide, by decide, by decide⟩
  intro w ev res
  cases ev with
  | mk p k =>
    cases k with
    | modified =>
      by_cases hp : pyEndsWith p ("." ++ w.extension) = true
      · simp only [dispatchEvent, on_modified, hp, if_true]
        rw [pyEndsWith_iff] at hp
        cases res with
        | exited code =>
          by_cases hc : code = 0 <;> simp [hc, hp]
        | oserror m => simp [hp]
      · simp only [dispatchEvent, on_modified]
        rw [if_neg hp]
        rw [pyEndsWith_iff] at hp
        simp [hp]
    | created => simp [dispatchEvent]
    | other => simp [dispatchEvent]

/-- C2: for every combination of defaults, optional global configuration
file, optional local configuration file and caller overrides (with both
files either absent or parsed), the merge succeeds and resolves every
key by the precedence chain overrides, then local file, then global
file, then defaults — each stage overrides exactly the keys it defines,
and a key absent from every override source keeps its default. -/
theorem configMerge_precedence {α : Type} (defaults : String → Option α)
    (gN lN : String) (gSt lSt : ConfigFile α)
    (argopts : Option (String → Option α))
    (hg : gSt = ConfigFile.absent ∨ ∃ g, gSt = ConfigFile.parsed g)
    (hl : lSt = ConfigFile.absent ∨ ∃ l, lSt = ConfigFile.parsed l) :
    ∃ c, configuratorInit defaults gN lN gSt lSt argopts = Except.ok c ∧
      ∀ k, c k = ((optEntries argopts k).or ((stageEntries lSt k).or
        ((stageEntries gSt k).or (defaults k)))) := by
  rcases hg with rfl | ⟨g, rfl⟩ <;> rcases hl with rfl | ⟨l, rfl⟩ <;>
    rcases argopts with - | a <;>
    refine ⟨_, rfl, fun k => ?_⟩ <;>
    simp only [pyDictUpdate, stageEntries, optEntries] <;>
    (try cases a k) <;> (try cases l k) <;> (try cases g k) <;>
    simp [Option.or]

/-- C2 witness: at a concrete instantiation with both files parsed and
overrides present, the merge succeeds and every key follows the
precedence chain. -/
theorem configMerge_precedence_witness :
    ∃ c, configuratorInit (fun _ => some "dflt") "g" "l"
        (ConfigFile.parsed (fun k => if k = "java" then some "gj" else none))
        (ConfigFile.parsed (fun k => if k = "format" then some "svg" else none))
        (some (fun k => if k = "verbose" then some "yes" else none)) =
      Except.ok c ∧
      ∀ k, c k =
        ((optEntries (some (fun k => if k = "verbose" then some "yes"
            else none)) k).or
          ((stageEntries (ConfigFile.parsed
              (fun k => if k = "format" then some "svg" else none)) k).or
            ((stageEntries (ConfigFile.parsed
                (fun k => if k = "java" then some "gj" else none)) k).or
              ((fun _ => some "dflt") k)))) :=
  configMerge_precedence (fun _ => some "dflt") "g" "l" _ _ _
    (Or.inr ⟨_, rfl⟩) (Or.inr ⟨_, rfl⟩)

/-- C3 counterexample: with extension `"pu"` and format `"png"`, the
path `"a.pu.b.pu"` contains an earlier occurrence of `".pu"` besides the
trailing one; the code's derivation yields `"a.png.b.png"`, so the
earlier occurrence is NOT left unchanged (the claim would predict
`"a.pu.b.png"`). -/
theorem outputPath_trailing_only_counterexample :
    genfileOf (Watcher.mk false "java" "plantuml.jar" "." "pu" "." "png")
        "a.pu.b.pu" = "a.png.b.png" ∧
      ("a.png.b.png" : String) ≠ "a.pu.b.png" :=
  ⟨rfl, by decide⟩

/-- C3 (amended): the expected-output-path derivation replaces EVERY
non-overlapping occurrence of `"." + sourceExtension` in the path with
`"." + outputFormat`, scanning left to right — not only the trailing
occurrence.  Stated for a path carrying one interior and one trailing
occurrence (with no further stray occurrences): both are replaced. -/
theorem outputPath_replaces_every_occurrence (e f u v : String)
    (hu : ∀ i, i < u.data.length →
      (("." ++ e).data.isPrefixOf
        ((u ++ "." ++ e ++ v ++ "." ++ e).data.drop i)) = false)
    (hv : ∀ i, i < v.data.length →
      (("." ++ e).data.isPrefixOf ((v ++ "." ++ e).data.drop i)) = false) :
    genfileOf (Watcher.mk false "java" "plantuml.jar" "." e "." f)
        (u ++ "." ++ e ++ v ++ "." ++ e) =
      u ++ "." ++ f ++ v ++ "." ++ f := by
  have hne : ("." ++ e).data ≠ [] := by simp [String.data_append]
  have hpath : (u ++ "." ++ e ++ v ++ "." ++ e).data
      = u.data ++ (("." ++ e).data ++ (v.data ++ ("." ++ e).data)) := by
    simp [String.data_append]
  have hvd : (v ++ "." ++ e).data = v.data ++ ("." ++ e).data := by
    simp [String.data_append]
  rw [hpath] at hu
  rw [hvd] at hv
  apply String.ext
  show replaceGo ("." ++ e).data ("." ++ f).data 0
      (u ++ "." ++ e ++ v ++ "." ++ e).data
    = (u ++ "." ++ f ++ v ++ "." ++ f).data
  rw [hpath]
  rw [replaceGo_clean _ _ _ _ hu]
  rw [replaceGo_matched _ _ _ hne]
  rw [replaceGo_clean _ _ _ _ hv]
  have hlast : replaceGo ("." ++ e).data ("." ++ f).data 0 (("." ++ e).data)
      = ("." ++ f).data := by
    simpa [replaceGo] using
      replaceGo_matched ("." ++ e).data ("." ++ f).data [] hne
  rw [hlast]
  simp [String.data_append]

/-- C3 witness: the amended statement applied at extension `"pu"`,
format `"png"`, interior stem `"a"` and `".b"`: the interior occurrence
and the trailing occurrence are both replaced. -/
theorem outputPath_replaces_every_occurrence_witness :
    genfileOf (Watcher.mk false "java" "plantuml.jar" "." "pu" "." "png")
        ("a" ++ "." ++ "pu" ++ ".b" ++ "." ++ "pu") =
      "a" ++ "." ++ "png" ++ ".b" ++ "." ++ "png" :=
  outputPath_replaces_every_occurrence "pu" "png" "a" ".b"
    (by decide) (by decide)

/-- C4: an accepted event whose render exits with a non-zero code `n` is
reported with exactly the line
`"error: exit code " ++ n ++ " processing file " ++ file` (after the
per-event status line), and the session continues: two failing renders
followed by one succeeding render produce all three reports, in event
order. -/
theorem renderFailure_reported_and_nonfatal (w : Watcher)
    (f1 f2 f3 : String) (n1 n2 : Int) (hn1 : n1 ≠ 0) (hn2 : n2 ≠ 0)
    (h1 : pyEndsWith f1 ("." ++ w.extension) = true)
    (h2 : pyEndsWith f2 ("." ++ w.extension) = true)
    (h3 : pyEndsWith f3 ("." ++ w.extension) = true) :
    processEvents w
      [(ChangeEvent.mk f1 EventKind.modified, ProcResult.exited n1),
       (ChangeEvent.mk f2 EventKind.modified, ProcResult.exited n2),
       (ChangeEvent.mk f3 EventKind.modified, ProcResult.exited 0)] =
      ["processing model source: " ++ pyJoin w.outputdir f1,
       "error: exit code " ++ toString n1 ++ " processing file " ++ f1,
       "processing model source: " ++ pyJoin w.outputdir f2,
       "error: exit code " ++ toString n2 ++ " processing file " ++ f2,
       "processing model source: " ++ pyJoin w.outputdir f3,
       "generated model diagram: " ++ genfileOf w f3] := by
  simp [processEvents, dispatchEvent, on_modified, h1, h2, h3, hn1, hn2]

/-- C4 witness: the failure/failure/success scenario at a concrete
configuration and exit codes 1 and 2. -/
theorem renderFailure_reported_and_nonfatal_witness :
    processEvents (Watcher.mk false "java" "plantuml.jar" "." "pu" "/o" "png")
      [(ChangeEvent.mk "a.pu" EventKind.modified, ProcResult.exited 1),
       (ChangeEvent.mk "b.pu" EventKind.modified, ProcResult.exited 2),
       (ChangeEvent.mk "c.pu" EventKind.modified, ProcResult.exited 0)] =
      ["processing model source: " ++ pyJoin "/o" "a.pu",
       "error: exit code " ++ toString (1 : Int) ++ " processing file "
         ++ "a.pu",
       "processing model source: " ++ pyJoin "/o" "b.pu",
       "error: exit code " ++ toString (2 : Int) ++ " processing file "
         ++ "b.pu",
       "processing model source: " ++ pyJoin "/o" "c.pu",
       "generated model diagram: "
         ++ genfileOf (Watcher.mk false "java" "plantuml.jar" "." "pu" "/o"
              "png") "c.pu"] :=
  renderFailure_reported_and_nonfatal
    (Watcher.mk false "java" "plantuml.jar" "." "pu" "/o" "png")
    "a.pu" "b.pu" "c.pu" 1 2 (by decide) (by decide)
    (by decide) (by decide) (by decide)

/-- C5: for every resolved configuration, construction succeeds exactly
when the interpreter and renderer paths are existing files, the watch
and output directories are existing directories, and the output format
is `png` or `svg`; a violation yields a fatal error message quoting the
offending value; a successful construction returns the configuration
unchanged (never partial); and the watch branch of `main` only ever
reaches the run loop when every invariant holds — validation errors
cannot arise during it. -/
theorem validation_before_watching (isfile isdir : String → Bool)
    (w : Watcher) (evs : List (ChangeEvent × ProcResult)) :
    ((∃ w2, watcherInit isfile isdir w = Except.ok w2) ↔
      (isfile w.java = true ∧ isfile w.plantuml = true ∧
        isdir w.watchdir = true ∧ isdir w.outputdir = true ∧
        (w.format = "png" ∨ w.format = "svg"))) ∧
    (∀ w2, watcherInit isfile isdir w = Except.ok w2 → w2 = w) ∧
    (∀ m, watcherInit isfile isdir w = Except.error m →
      m = "cannot find Java Virtual Machine binary file '" ++ w.java ++ "'"
      ∨ m = "cannot find PlantUML jar file '" ++ w.plantuml ++ "'"
      ∨ m = "cannot find watch directory '" ++ w.watchdir ++ "'"
      ∨ m = "cannot find output directory '" ++ w.outputdir ++ "'"
      ∨ m = "cannot handle output format '" ++ w.format ++ "'") ∧
    (∀ outs, mainWatch isfile isdir w evs = AppResult.ran outs →
      (isfile w.java = true ∧ isfile w.plantuml = true ∧
        isdir w.watchdir = true ∧ isdir w.outputdir = true ∧
        (w.format = "png" ∨ w.format = "svg"))) := by
  have hfmt : (VALID_OUTPUT_FORMATS.contains w.format = true) ↔
      (w.format = "png" ∨ w.format = "svg") := by
    simp [VALID_OUTPUT_FORMATS, List.contains]
  by_cases h1 : isfile w.java = true <;>
    by_cases h2 : isfile w.plantuml = true <;>
    by_cases h3 : isdir w.watchdir = true <;>
    by_cases h4 : isdir w.outputdir = true <;>
    by_cases h5 : VALID_OUTPUT_FORMATS.contains w.format = true <;>
    simp [watcherInit, mainWatch, h1, h2, h3, h4, h5, ← hfmt,
      Bool.not_eq_true] at * <;>
    simp [h1, h2, h3, h4, h5]

/-- C5 witness: with an all-true filesystem and a `png` configuration,
construction succeeds. -/
theorem validation_before_watching_witness :
    ∃ w2, watcherInit (fun _ => true) (fun _ => true)
        (Watcher.mk false "java" "plantuml.jar" "." "pu" "." "png") =
      Except.ok w2 :=
  (validation_before_watching (fun _ => true) (fun _ => true)
      (Watcher.mk false "java" "plantuml.jar" "." "pu" "." "png") []).1.mpr
    ⟨rfl, rfl, rfl, rfl, Or.inl rfl⟩

/-- C6: the command builder is a pure function, and for space-free
configuration values and source path its output tokenizes exactly to the
invocation form `interpreter rendererPath [-v] -t<format> <sourceFile>`
of the specification, with the `-v` token present precisely when
`config.verbose` is true; identical inputs trivially yield the identical
command string. -/
theorem commandBuilder_refines_invocation_form (w : Watcher) (f : String)
    (hj : ¬ ' ' ∈ w.java.data) (hjn : w.java ≠ "")
    (hp : ¬ ' ' ∈ w.plantuml.data) (hpn : w.plantuml ≠ "")
    (hf : ¬ ' ' ∈ w.format.data)
    (hs : ¬ ' ' ∈ f.data) (hsn : f ≠ "") :
    tokensOf (plantuml_command w f) = renderInvocationSpec w f ∧
    (∀ (w2 : Watcher) (f2 : String), w = w2 → f = f2 →
      plantuml_command w f = plantuml_command w2 f2) := by
  refine ⟨?_, fun w2 f2 hw hf2 => hw ▸ hf2 ▸ rfl⟩
  have hjd : w.java.data ≠ [] := fun h0 => hjn (String.ext h0)
  have hpd : w.plantuml.data ≠ [] := fun h0 => hpn (String.ext h0)
  have hsd : f.data ≠ [] := fun h0 => hsn (String.ext h0)
  have htf : ¬ ' ' ∈ ('-' :: 't' :: w.format.data) := by
    simp [hf]
  cases hv : w.verbose with
  | false =>
    have hdata : (plantuml_command w f).data =
        w.java.data ++ ' ' :: (['-', 'j', 'a', 'r'] ++ ' ' :: (w.plantuml.data
          ++ ' ' :: ([] ++ ' ' :: (('-' :: 't' :: w.format.data)
            ++ ' ' :: f.data)))) := by
      simp [plantuml_command, hv, String.data_append]
    rw [tokensOf, hdata,
      splitSpacesAux_eval _ _ hj,
      splitSpacesAux_eval _ _ (by decide),
      splitSpacesAux_eval _ _ hp,
      splitSpacesAux_eval _ _ (by simp),
      splitSpacesAux_eval _ _ htf,
      splitSpacesAux_last _ hs]
    simp [renderInvocationSpec, hv, List.filter_cons, hjd, hpd, hsd]
    rfl
  | true =>
    have hdata : (plantuml_command w f).data =
        w.java.data ++ ' ' :: (['-', 'j', 'a', 'r'] ++ ' ' :: (w.plantuml.data
          ++ ' ' :: (['-', 'v'] ++ ' ' :: (('-' :: 't' :: w.format.data)
            ++ ' ' :: f.data)))) := by
      simp [plantuml_command, hv, String.data_append]
    rw [tokensOf, hdata,
      splitSpacesAux_eval _ _ hj,
      splitSpacesAux_eval _ _ (by decide),
      splitSpacesAux_eval _ _ hp,
      splitSpacesAux_eval _ _ (by decide),
      splitSpacesAux_eval _ _ htf,
      splitSpacesAux_last _ hs]
    simp [renderInvocationSpec, hv, List.filter_cons, hjd, hpd, hsd]
    rfl

/-- C6 witness: at a concrete non-verbose configuration the command
tokenizes to the specified invocation form (without `-v`). -/
theorem commandBuilder_refines_invocation_form_witness :
    tokensOf (plantuml_command
        (Watcher.mk false "java" "plantuml.jar" "." "pu" "." "png") "d.pu") =
      renderInvocationSpec
        (Watcher.mk false "java" "plantuml.jar" "." "pu" "." "png") "d.pu" :=
  (commandBuilder_refines_invocation_form
      (Watcher.mk false "java" "plantuml.jar" "." "pu" "." "png") "d.pu"
      (by decide) (by decide) (by decide) (by decide) (by decide)
      (by decide) (by decide)).1

/-- C7: a missing configuration file is silently skipped — resolution
succeeds and proceeds with the remaining sources — while a file that is
present but malformed aborts resolution with the fatal message
`"configuration file <name> is not a valid json file: <err>"` naming the
offending file and the parse failure (the global file first, otherwise
the local file). -/
theorem configFiles_missing_skipped_malformed_fatal {α : Type}
    (d : String → Option α) (gN lN : String) (e : String)
    (g l aMap : String → Option α) (lSt : ConfigFile α)
    (a : Option (String → Option α)) :
    (configuratorInit d gN lN ConfigFile.absent (ConfigFile.parsed l)
        (some aMap) = Except.ok (pyDictUpdate (pyDictUpdate d l) aMap)) ∧
    (configuratorInit d gN lN (ConfigFile.parsed g) ConfigFile.absent
        (some aMap) = Except.ok (pyDictUpdate (pyDictUpdate d g) aMap)) ∧
    (configuratorInit d gN lN ConfigFile.absent ConfigFile.absent
        (some aMap) = Except.ok (pyDictUpdate d aMap)) ∧
    (configuratorInit d gN lN (ConfigFile.malformed e) lSt a =
      Except.error ("configuration file " ++ gN
        ++ " is not a valid json file: " ++ e)) ∧
    (configuratorInit d gN lN ConfigFile.absent (ConfigFile.malformed e) a =
      Except.error ("configuration file " ++ lN
        ++ " is not a valid json file: " ++ e)) ∧
    (configuratorInit d gN lN (ConfigFile.parsed g) (ConfigFile.malformed e)
        a = Except.error ("configuration file " ++ lN
        ++ " is not a valid json file: " ++ e)) :=
  ⟨rfl, rfl, rfl, rfl, rfl, rfl⟩

/-- C7 witness: with the global file missing and the local file
malformed, resolution fails with the message naming the local file and
the parse failure. -/
theorem configFiles_missing_skipped_malformed_fatal_witness :
    configuratorInit (fun _ => some "dflt") "/home/u/.plantumlwatch"
        "/cwd/.plantumlwatch" ConfigFile.absent
        (ConfigFile.malformed "Expecting value: line 1 column 1 (char 0)")
        (some (fun _ => none)) =
      Except.error ("configuration file " ++ "/cwd/.plantumlwatch"
        ++ " is not a valid json file: "
        ++ "Expecting value: line 1 column 1 (char 0)") :=
  (configFiles_missing_skipped_malformed_fatal (fun _ => some "dflt")
      "/home/u/.plantumlwatch" "/cwd/.plantumlwatch"
      "Expecting value: line 1 column 1 (char 0)" (fun _ => none)
      (fun _ => none) (fun _ => none) ConfigFile.absent
      (some (fun _ => none))).2.2.2.2.1

/-- C8: an accepted event whose render process cannot be launched at all
(`subprocess.call` raises `OSError`) is reported with the line
`"error: " ++ message` and the session continues: a subsequent
succeeding event is still processed and reported. -/
theorem launchFailure_reported_and_nonfatal (w : Watcher)
    (f1 f2 msg : String)
    (h1 : pyEndsWith f1 ("." ++ w.extension) = true)
    (h2 : pyEndsWith f2 ("." ++ w.extension) = true) :
    processEvents w
      [(ChangeEvent.mk f1 EventKind.modified, ProcResult.oserror msg),
       (ChangeEvent.mk f2 EventKind.modified, ProcResult.exited 0)] =
      ["processing model source: " ++ pyJoin w.outputdir f1,
       "error: " ++ msg,
       "processing model source: " ++ pyJoin w.outputdir f2,
       "generated model diagram: " ++ genfileOf w f2] := by
  simp [processEvents, dispatchEvent, on_modified, h1, h2]

/-- C8 witness: a missing-binary launch failure followed by a succeeding
render, at a concrete configuration. -/
theorem launchFailure_reported_and_nonfatal_witness :
    processEvents (Watcher.mk false "java" "plantuml.jar" "." "pu" "/o" "png")
      [(ChangeEvent.mk "a.pu" EventKind.modified,
        ProcResult.oserror "No such file or directory"),
       (ChangeEvent.mk "b.pu" EventKind.modified, ProcResult.exited 0)] =
      ["processing model source: " ++ pyJoin "/o" "a.pu",
       "error: " ++ "No such file or directory",
       "processing model source: " ++ pyJoin "/o" "b.pu",
       "generated model diagram: "
         ++ genfileOf (Watcher.mk false "java" "plantuml.jar" "." "pu" "/o"
              "png") "b.pu"] :=
  launchFailure_reported_and_nonfatal
    (Watcher.mk false "java" "plantuml.jar" "." "pu" "/o" "png")
    "a.pu" "b.pu" "No such file or directory" (by decide) (by decide)

/-- C9: invoking the `configure` command never writes a configuration
file and never watches: the call `configure()` supplies zero arguments
to a function declaring the required parameter `self`, so the program
exits with the caught `TypeError` instead of writing the default
configuration document. -/
theorem configure_mode_exits_with_error (isfile isdir : String → Bool)
    (w : Watcher) (evs : List (ChangeEvent × ProcResult)) :
    mainRun isfile isdir w evs ["configure"] =
      MainOutcome.errorExit
        "error: configure() missing 1 required positional argument: 'self'"
    ∧ (∀ r, mainRun isfile isdir w evs ["configure"] ≠ MainOutcome.watched r)
    ∧ (∀ p, mainRun isfile isdir w evs ["configure"] ≠
        MainOutcome.configWritten p) := by
  refine ⟨rfl, ?_, ?_⟩ <;> intro x h <;>
    rw [show mainRun isfile isdir w evs ["configure"] =
      MainOutcome.errorExit
        "error: configure() missing 1 required positional argument: 'self'"
      from rfl] at h <;>
    exact MainOutcome.noConfusion h

/-- C9 witness: the configure branch at a concrete environment exits
with the `TypeError` message and does not watch. -/
theorem configure_mode_exits_with_error_witness :
    mainRun (fun _ => true) (fun _ => true)
        (Watcher.mk false "java" "plantuml.jar" "." "pu" "." "png") []
        ["configure"] =
      MainOutcome.errorExit
        "error: configure() missing 1 required positional argument: 'self'" :=
  (configure_mode_exits_with_error (fun _ => true) (fun _ => true)
      (Watcher.mk false "java" "plantuml.jar" "." "pu" "." "png") []).1

/-- C10 counterexample: two configurations agreeing on everything that
the claim lists for the reported output path (same output format) both
accept the path `"a.b.pu"`, yet derive different reported output paths
because they differ in the source extension — so the reported output
path is NOT derived solely from the event's source path and the output
format. -/
theorem invocation_frame_counterexample :
    (Watcher.mk false "java" "plantuml.jar" "." "pu" "/out1" "png").format =
      (Watcher.mk false "java" "plantuml.jar" "." "b.pu" "/out2"
        "png").format
    ∧ pyEndsWith "a.b.pu"
        ("." ++ (Watcher.mk false "java" "plantuml.jar" "." "pu" "/out1"
          "png").extension) = true
    ∧ pyEndsWith "a.b.pu"
        ("." ++ (Watcher.mk false "java" "plantuml.jar" "." "b.pu" "/out2"
          "png").extension) = true
    ∧ genfileOf (Watcher.mk false "java" "plantuml.jar" "." "pu" "/out1"
        "png") "a.b.pu" = "a.b.png"
    ∧ genfileOf (Watcher.mk false "java" "plantuml.jar" "." "b.pu" "/out2"
        "png") "a.b.pu" = "a.png"
    ∧ ("a.b.png" : String) ≠ "a.png" :=
  ⟨rfl, by decide, by decide, rfl, rfl, by decide⟩

/-- C10 (amended): the configured output directory (and watch directory)
has no effect on the constructed render invocation or on the reported
output file path: the invocation depends only on the interpreter path,
renderer path, verbose flag, output format and the event's source path,
and the reported output path depends only on the source path, the
configured source extension and the output format. -/
theorem invocation_independent_of_outputdir (c1 c2 : Watcher) (f : String)
    (hj : c1.java = c2.java) (hp : c1.plantuml = c2.plantuml)
    (hv : c1.verbose = c2.verbose) (hf : c1.format = c2.format) :
    plantuml_command c1 f = plantuml_command c2 f ∧
      (c1.extension = c2.extension → genfileOf c1 f = genfileOf c2 f) := by
  constructor
  · simp [plantuml_command, hj, hp, hv, hf]
  · intro he; simp [genfileOf, he, hf]

/-- C10 witness: two configurations differing only in their output and
watch directories build the same invocation and report the same output
path. -/
theorem invocation_independent_of_outputdir_witness :
    plantuml_command
        (Watcher.mk false "java" "plantuml.jar" "/w1" "pu" "/out1" "png")
        "d.pu" =
      plantuml_command
        (Watcher.mk false "java" "plantuml.jar" "/w2" "pu" "/out2" "png")
        "d.pu" ∧
    ((Watcher.mk false "java" "plantuml.jar" "/w1" "pu" "/out1"
        "png").extension =
      (Watcher.mk false "java" "plantuml.jar" "/w2" "pu" "/out2"
        "png").extension →
      genfileOf (Watcher.mk false "java" "plantuml.jar" "/w1" "pu" "/out1"
          "png") "d.pu" =
        genfileOf (Watcher.mk false "java" "plantuml.jar" "/w2" "pu" "/out2"
          "png") "d.pu") :=
  invocation_independent_of_outputdir
    (Watcher.mk false "java" "plantuml.jar" "/w1" "pu" "/out1" "png")
    (Watcher.mk false "java" "plantuml.jar" "/w2" "pu" "/out2" "png")
    "d.pu" rfl rfl rfl rfl

/-- C1 witness: a `modified` event for `"x.pu"` with extension `"pu"` is
accepted by the filter. -/
theorem changeFilter_accepts_iff_modified_and_suffix_witness :
    (dispatchEvent (Watcher.mk true "java" "plantuml.jar" "." "pu" "." "png")
      (ChangeEvent.mk "x.pu" EventKind.modified)
      (ProcResult.exited 0)).2.isSome = true :=
  (changeFilter_accepts_iff_modified_and_suffix.1 _ _ _).mpr
    ⟨rfl, "x", by decide⟩
